import Mathlib

/-!
Shallow embedding of `src/01_organize_photos_chronologically.ipynb`.

The notebook's core logic is two loops:

* a first pass (the solution's rename loop), which per photo computes a new
  filename `new_name` from the photo's name and the containing folder's
  8-digit date prefix `current_date`, then runs
  `shutil.copy(photo.path, f'img/tmp/{new_name}')` — unconditionally, on every
  non-raising path;
* a second pass over the staged `.jpg` files, which loads the EXIF block from
  `im.info["exif"]`, re-parses `photo.name[4:19]` with
  `datetime.strptime(_, '%Y%m%d_%H%M%S')`, and writes the recovered timestamp
  into the EXIF tag 36867 (DateTimeOriginal) when that tag is not already
  populated, saving the image back in place.

Python `datetime` arithmetic is embedded with the standard proleptic-Gregorian
civil-calendar conversions on `Nat`; the `strftime`/`strptime` calls for the
fixed format strings the notebook uses are embedded as explicit digit
rendering and parsing.  Sub-second parts never reach any output the notebook
produces (`utcfromtimestamp` keeps the fractional part as microseconds, but
every `strftime` format used here truncates to whole seconds, and the
fallback format string contains no `%` directives), so timestamps are
modelled at second resolution, and `int(name[:13])/1000` is modelled as `Nat`
floor division (the integer second part of the float quotient agrees with
floor division for every 13-digit value).  Uncaught Python exceptions
(`KeyError`, `ValueError`), which abort the run, are modelled as `Except`
errors.
-/

namespace PhotoOrg

/-- A Python `datetime.datetime` at second resolution. -/
structure DateTime where
  year : Nat
  month : Nat
  day : Nat
  hour : Nat
  minute : Nat
  second : Nat
deriving DecidableEq

/-- Gregorian leap-year rule, as used by Python's `datetime`. -/
def isLeap (y : Nat) : Bool :=
  (y % 4 == 0 && y % 100 != 0) || y % 400 == 0

/-- Number of days in a month of a given year (Gregorian). -/
def daysInMonth (y m : Nat) : Nat :=
  if m = 2 then (if isLeap y then 29 else 28)
  else if m = 4 ∨ m = 6 ∨ m = 9 ∨ m = 11 then 30
  else 31

/-- Days from 0000-03-01 to the civil date `y-m-d` (valid for `y ≥ 1`);
the standard civil-calendar conversion underlying `datetime`'s ordinal
arithmetic. -/
def daysFromCivil0 (y m d : Nat) : Nat :=
  let ys := if m ≤ 2 then y - 1 else y
  let era := ys / 400
  let yoe := ys % 400
  let mp := (m + 9) % 12
  let doy := (153 * mp + 2) / 5 + (d - 1)
  let doe := yoe * 365 + yoe / 4 - yoe / 100 + doy
  era * 146097 + doe

/-- Civil date from a count of days since 0000-03-01 (inverse of
`daysFromCivil0`). -/
def civilFromDays0 (z : Nat) : Nat × Nat × Nat :=
  let era := z / 146097
  let doe := z % 146097
  let yoe := (doe - doe / 1460 + doe / 36524 - doe / 146096) / 365
  let ys := yoe + era * 400
  let doy := doe - (365 * yoe + yoe / 4 - yoe / 100)
  let mp := (5 * doy + 2) / 153
  let d := doy - (153 * mp + 2) / 5 + 1
  let m := if mp < 10 then mp + 3 else mp - 9
  (if m ≤ 2 then ys + 1 else ys, m, d)

/-- `datetime.utcfromtimestamp` on a nonnegative whole-second Unix
timestamp (719468 is the day count from 0000-03-01 to 1970-01-01). -/
def utcfromtimestamp (s : Nat) : DateTime :=
  let ymd := civilFromDays0 (s / 86400 + 719468)
  let r := s % 86400
  ⟨ymd.1, ymd.2.1, ymd.2.2, r / 3600, r % 3600 / 60, r % 60⟩

/-- `dt + timedelta(seconds=n)`: calendar-aware addition of `n` seconds
(the notebook only ever adds `timedelta(hours=8)`, i.e. `n = 28800`). -/
def addSeconds (dt : DateTime) (n : Nat) : DateTime :=
  let total := daysFromCivil0 dt.year dt.month dt.day * 86400
    + dt.hour * 3600 + dt.minute * 60 + dt.second + n
  let ymd := civilFromDays0 (total / 86400)
  let r := total % 86400
  ⟨ymd.1, ymd.2.1, ymd.2.2, r / 3600, r % 3600 / 60, r % 60⟩

/-- The ASCII digit character for `n < 10`. -/
def digitChar (n : Nat) : Char := Char.ofNat (48 + n)

/-- Numeric value of an ASCII digit character. -/
def digitVal (c : Char) : Nat := c.toNat - 48

/-- Two-digit zero-padded decimal rendering (`%m`, `%d`, `%H`, `%M`, `%S`). -/
def pad2L (n : Nat) : List Char := [digitChar (n / 10), digitChar (n % 10)]

/-- Four-digit zero-padded decimal rendering (`%Y` for years 1000–9999,
the only years the notebook's data can produce). -/
def pad4L (n : Nat) : List Char :=
  [digitChar (n / 1000), digitChar (n / 100 % 10), digitChar (n / 10 % 10),
   digitChar (n % 10)]

/-- Value of four ASCII digits read as a decimal number. -/
def val4 (a b c d : Char) : Nat :=
  1000 * digitVal a + 100 * digitVal b + 10 * digitVal c + digitVal d

/-- Value of two ASCII digits read as a decimal number. -/
def val2 (a b : Char) : Nat := 10 * digitVal a + digitVal b

/-- `local_time.strftime('%Y%m%d_%H%M%S')` as a character list. -/
def renderTsL (dt : DateTime) : List Char :=
  pad4L dt.year ++ pad2L dt.month ++ pad2L dt.day
    ++ '_' :: (pad2L dt.hour ++ pad2L dt.minute ++ pad2L dt.second)

/-- `local_time.strftime('%Y%m%d_%H%M%S')`. -/
def renderTs (dt : DateTime) : String := ⟨renderTsL dt⟩

/-- `local_time.strftime('%Y%m%d')`, used for the date-hint comparison. -/
def renderDate (dt : DateTime) : String :=
  ⟨pad4L dt.year ++ pad2L dt.month ++ pad2L dt.day⟩

/-- `local_time.strftime('IMG_%Y%m%d_%H%M%S.jpg')` as a character list. -/
def renderCanonicalL (dt : DateTime) : List Char :=
  'I' :: 'M' :: 'G' :: '_' :: (renderTsL dt ++ ['.', 'j', 'p', 'g'])

/-- `local_time.strftime('IMG_%Y%m%d_%H%M%S.jpg')`. -/
def renderCanonical (dt : DateTime) : String := ⟨renderCanonicalL dt⟩

/-- `local_time.strftime('%Y:%m:%d %H:%M:%S')`, the EXIF datetime encoding
written by the second pass (the `.encode()` to bytes is modelled as the
string itself). -/
def formatExif (dt : DateTime) : String :=
  ⟨pad4L dt.year ++ ':' :: pad2L dt.month ++ ':' :: pad2L dt.day
    ++ ' ' :: pad2L dt.hour ++ ':' :: pad2L dt.minute ++ ':' :: pad2L dt.second⟩

/-- Python string slice `s[a:b]` for `0 ≤ a ≤ b` (out-of-range ends
truncate, exactly as `List.drop`/`List.take` do). -/
def pyslice (s : String) (a b : Nat) : String :=
  ⟨(s.data.drop a).take (b - a)⟩

/-- Helper for Python's `sub in s` substring test. -/
def pyContainsAux (sub : List Char) : List Char → Bool
  | [] => sub.isEmpty
  | c :: rest => sub.isPrefixOf (c :: rest) || pyContainsAux sub rest

/-- Python's `sub in s` substring containment test on strings. -/
def pyContains (s sub : String) : Bool := pyContainsAux sub.data s.data

/-- Python `int(s)` on a plain digit string: succeeds iff `s` is nonempty
and all digits, returning its decimal value, and raises `ValueError`
(modelled as `none`) otherwise.  (Python's `int` additionally tolerates
surrounding whitespace, a sign, and `_` separators between digits; none of
the notebook's inputs use those, and on every input without them this
model agrees with `int`.) -/
def pyInt (s : String) : Option Nat :=
  if s.data.isEmpty then none
  else if s.data.all (fun c => c.isDigit) then
    some (s.data.foldl (fun a c => 10 * a + digitVal c) 0)
  else none

/-- `datetime.strptime(s, '%Y%m%d_%H%M%S')` on a character list: exactly a
4-digit year, 2-digit month/day, a literal `_`, and 2-digit
hour/minute/second, with `datetime`'s range validation (year ≥ 1, month
1–12, day valid for the month, hour ≤ 23, minute ≤ 59, second ≤ 59);
anything else raises `ValueError`, modelled as `none`.  (CPython's
`strptime` matches `%Y` greedily over 1–4 digits with backtracking; on the
fixed-width zero-padded strings this notebook ever feeds it the two
behaviours coincide.) -/
def parse15L : List Char → Option DateTime
  | [y1, y2, y3, y4, a1, a2, b1, b2, u, h1, h2, n1, n2, s1, s2] =>
    if y1.isDigit ∧ y2.isDigit ∧ y3.isDigit ∧ y4.isDigit
        ∧ a1.isDigit ∧ a2.isDigit ∧ b1.isDigit ∧ b2.isDigit ∧ u = '_'
        ∧ h1.isDigit ∧ h2.isDigit ∧ n1.isDigit ∧ n2.isDigit
        ∧ s1.isDigit ∧ s2.isDigit then
      let y := val4 y1 y2 y3 y4
      let mo := val2 a1 a2
      let da := val2 b1 b2
      let h := val2 h1 h2
      let mi := val2 n1 n2
      let s := val2 s1 s2
      if 1 ≤ y ∧ 1 ≤ mo ∧ mo ≤ 12 ∧ 1 ≤ da ∧ da ≤ daysInMonth y mo
          ∧ h ≤ 23 ∧ mi ≤ 59 ∧ s ≤ 59 then
        some ⟨y, mo, da, h, mi, s⟩
      else none
    else none
  | _ => none

/-- `datetime.strptime(s, '%Y%m%d_%H%M%S')` on a string. -/
def strptime15 (s : String) : Option DateTime := parse15L s.data

/-- The uncaught Python exceptions the modelled code can raise. -/
inductive PyExc where
  | valueError
  | keyError
deriving DecidableEq

instance {α : Type} [DecidableEq α] : DecidableEq (Except PyExc α) := fun a b =>
  match a, b with
  | .error x, .error y =>
    if h : x = y then .isTrue (by rw [h]) else .isFalse (fun hc => h (by cases hc; rfl))
  | .ok x, .ok y =>
    if h : x = y then .isTrue (by rw [h]) else .isFalse (fun hc => h (by cases hc; rfl))
  | .error _, .ok _ => .isFalse (fun hc => by cases hc)
  | .ok _, .error _ => .isFalse (fun hc => by cases hc)

/-- The shared tail of the PXL and epoch branches of the rename loop:
`local_time = utc_time + timedelta(hours=8)`, then
`new_name = local_time.strftime('IMG_%Y%m%d_%H%M%S.jpg')`, overridden by
`local_time.strftime(f'IMG_{current_date}_120000_{photo.name}')` when
`local_time.strftime('%Y%m%d') != current_date`.  (The fallback f-string is
formatted before `strftime` runs; for hint/name strings without `%`
directives — every string this notebook handles — `strftime` returns it
unchanged.) -/
def finishLocal (utc : DateTime) (hint name : String) : String :=
  let localT := addSeconds utc 28800
  if renderDate localT = hint then renderCanonical localT
  else "IMG_" ++ hint ++ "_120000_" ++ name

/-- One iteration of the first-pass rename loop's `new_name` computation,
dispatching on `photo.name[:3] == 'IMG'`, `photo.name[:3] == 'PXL'`,
`photo.name[:2] == '16'` in that order.  `.ok (some n)` is a computed
`new_name`, `.ok none` is the warning branch (`new_name = None`,
`logging.warning(...)`), and `.error` is an uncaught exception from
`strptime` or `int` that aborts the run. -/
def resolve (name hint : String) : Except PyExc (Option String) :=
  if pyslice name 0 3 = "IMG" then .ok (some name)
  else if pyslice name 0 3 = "PXL" then
    match strptime15 (pyslice name 4 19) with
    | none => .error .valueError
    | some utc => .ok (some (finishLocal utc hint name))
  else if pyslice name 0 2 = "16" then
    match pyInt (pyslice name 0 13) with
    | none => .error .valueError
    | some ms => .ok (some (finishLocal (utcfromtimestamp (ms / 1000)) hint name))
  else .ok none

/-- The filename component under which
`shutil.copy(photo.path, f'img/tmp/{new_name}')` places the photo in the
staging folder.  The copy statement sits outside every branch, so it also
runs on the warning branch, where `new_name` is `None` and the f-string
formats it as the four characters `None`. -/
def stageDest (name hint : String) : Except PyExc String :=
  (resolve name hint).map (fun o => match o with | some n => n | none => "None")

/-- The EXIF dictionary `piexif.load` returns, restricted to the `'Exif'`
IFD: the DateTimeOriginal tag 36867 (a byte string, modelled as a string)
plus the remaining tags, carried opaquely. -/
structure ExifDict where
  dateTimeOriginal : Option String
  rest : List (Nat × String)
deriving DecidableEq

/-- A staged image file as the second pass sees it: its filename, the raw
EXIF block of the container when one is present (`im.info["exif"]`,
already parsed into an `ExifDict`), and the opaque pixel data. -/
structure StagedFile where
  name : String
  exif : Option ExifDict
  pixels : Nat
deriving DecidableEq

/-- Result of the metadata write step (the spec's `WriteResult`). -/
inductive WriteResult where
  | written
  | alreadyPresent
  | skipped
deriving DecidableEq

/-- Python truthiness of `exif_dict.get('Exif').get(EXIF_DATETIME_TAG)`:
`None` and the empty byte string are falsy. -/
def truthyTag : Option String → Bool
  | none => false
  | some s => !s.data.isEmpty

/-- One iteration of the second-pass loop over staged files: load the EXIF
block (`piexif.load(im.info["exif"])` — an uncaught `KeyError` when the
container has no EXIF block, since the unguarded load precedes the
`try/except TypeError` that re-loads via `im.info.get("exif")`), parse
`photo.name[4:19]`, and if the DateTimeOriginal tag is not populated,
write the formatted timestamp into it and save the file in place. -/
def secondPass (f : StagedFile) : Except PyExc (StagedFile × WriteResult) :=
  match f.exif with
  | none => .error .keyError
  | some e =>
    match strptime15 (pyslice f.name 4 19) with
    | none => .error .valueError
    | some dt =>
      if truthyTag e.dateTimeOriginal then .ok (f, .alreadyPresent)
      else
        .ok ({ f with exif := some { e with dateTimeOriginal := some (formatExif dt) } },
             .written)

/-- Field-validity for a `DateTime` whose `%Y` rendering is 4 digits: the
range of every timestamp the notebook's data paths can produce. -/
def ValidDT (dt : DateTime) : Prop :=
  1000 ≤ dt.year ∧ dt.year ≤ 9999 ∧ 1 ≤ dt.month ∧ dt.month ≤ 12
    ∧ 1 ≤ dt.day ∧ dt.day ≤ daysInMonth dt.year dt.month
    ∧ dt.hour ≤ 23 ∧ dt.minute ≤ 59 ∧ dt.second ≤ 59

instance (dt : DateTime) : Decidable (ValidDT dt) := by
  unfold ValidDT; infer_instance

/-! Helper lemmas. -/

theorem data_mk (l : List Char) : (String.mk l).data = l := rfl

theorem digitChar_isDigit {n : Nat} (h : n < 10) : (digitChar n).isDigit = true := by
  interval_cases n <;> decide

theorem digitVal_digitChar {n : Nat} (h : n < 10) : digitVal (digitChar n) = n := by
  interval_cases n <;> decide

theorem daysInMonth_le_31 (y m : Nat) : daysInMonth y m ≤ 31 := by
  unfold daysInMonth
  split
  · split <;> omega
  · split <;> omega

theorem parse_render (dt : DateTime) (hv : ValidDT dt) :
    parse15L (renderTsL dt) = some dt := by
  obtain ⟨hy1, hy2, hm1, hm2, hd1, hd2, hh, hmi, hs⟩ := hv
  have hd31 : dt.day ≤ 31 := le_trans hd2 (daysInMonth_le_31 dt.year dt.month)
  have e1 : 1000 * (dt.year / 1000) + 100 * (dt.year / 100 % 10)
      + 10 * (dt.year / 10 % 10) + dt.year % 10 = dt.year := by omega
  have e2 : 10 * (dt.month / 10) + dt.month % 10 = dt.month := by omega
  have e3 : 10 * (dt.day / 10) + dt.day % 10 = dt.day := by omega
  have e4 : 10 * (dt.hour / 10) + dt.hour % 10 = dt.hour := by omega
  have e5 : 10 * (dt.minute / 10) + dt.minute % 10 = dt.minute := by omega
  have e6 : 10 * (dt.second / 10) + dt.second % 10 = dt.second := by omega
  simp only [renderTsL, pad4L, pad2L, List.cons_append, List.nil_append, parse15L,
    digitChar_isDigit (show dt.year / 1000 < 10 by omega),
    digitChar_isDigit (show dt.year / 100 % 10 < 10 by omega),
    digitChar_isDigit (show dt.year / 10 % 10 < 10 by omega),
    digitChar_isDigit (show dt.year % 10 < 10 by omega),
    digitChar_isDigit (show dt.month / 10 < 10 by omega),
    digitChar_isDigit (show dt.month % 10 < 10 by omega),
    digitChar_isDigit (show dt.day / 10 < 10 by omega),
    digitChar_isDigit (show dt.day % 10 < 10 by omega),
    digitChar_isDigit (show dt.hour / 10 < 10 by omega),
    digitChar_isDigit (show dt.hour % 10 < 10 by omega),
    digitChar_isDigit (show dt.minute / 10 < 10 by omega),
    digitChar_isDigit (show dt.minute % 10 < 10 by omega),
    digitChar_isDigit (show dt.second / 10 < 10 by omega),
    digitChar_isDigit (show dt.second % 10 < 10 by omega),
    eq_self_iff_true, and_true, true_and, and_self, if_true,
    val4, val2,
    digitVal_digitChar (show dt.year / 1000 < 10 by omega),
    digitVal_digitChar (show dt.year / 100 % 10 < 10 by omega),
    digitVal_digitChar (show dt.year / 10 % 10 < 10 by omega),
    digitVal_digitChar (show dt.year % 10 < 10 by omega),
    digitVal_digitChar (show dt.month / 10 < 10 by omega),
    digitVal_digitChar (show dt.month % 10 < 10 by omega),
    digitVal_digitChar (show dt.day / 10 < 10 by omega),
    digitVal_digitChar (show dt.day % 10 < 10 by omega),
    digitVal_digitChar (show dt.hour / 10 < 10 by omega),
    digitVal_digitChar (show dt.hour % 10 < 10 by omega),
    digitVal_digitChar (show dt.minute / 10 < 10 by omega),
    digitVal_digitChar (show dt.minute % 10 < 10 by omega),
    digitVal_digitChar (show dt.second / 10 < 10 by omega),
    digitVal_digitChar (show dt.second % 10 < 10 by omega),
    e1, e2, e3, e4, e5, e6]
  rw [if_pos ⟨by omega, by omega, hm2, by omega, hd2, hh, hmi, hs⟩]

theorem slice3_renderCanonical (dt : DateTime) :
    pyslice (renderCanonical dt) 0 3 = "IMG" := rfl

theorem slice419_renderCanonical (dt : DateTime) :
    pyslice (renderCanonical dt) 4 19 = ⟨renderTsL dt⟩ := rfl

theorem truthyTag_formatExif (dt : DateTime) :
    truthyTag (some (formatExif dt)) = true := by
  simp [truthyTag, formatExif, pad4L, pad2L]

/-! Claim theorems. -/

/-- C1: for an unrecognized filename the rename loop does warn (the
`new_name = None` branch) and produces no canonical filename, and the staged
copy falls outside the second pass's `.jpg` filter — but, contrary to the
claim, the file is NOT excluded from staging: the unconditional
`shutil.copy(photo.path, f'img/tmp/{new_name}')` still runs and copies the
file into the staging folder under the literal name `None`. -/
theorem c1_unrecognized_is_staged_as_None :
    resolve "DSC_0001.jpg" "20221121" = .ok none
    ∧ stageDest "DSC_0001.jpg" "20221121" = .ok "None"
    ∧ pyContains "None" ".jpg" = false := by decide

/-- C2: contrary to the claim, a staged file whose container has no metadata
block at all is not treated as an empty block: the unguarded
`piexif.load(im.info["exif"])` raises an uncaught `KeyError` before the
`try/except TypeError` handler below it can run, aborting the run. -/
theorem c2_missing_exif_block_raises :
    secondPass ⟨"IMG_20221122_120000_1669256881625.jpg", none, 0⟩ = .error .keyError := by
  decide

/-- C3 counterexample: parsing the leading 13 digits of `1669256881625.jpg`
as epoch milliseconds and dividing by 1000 gives UTC 2022-11-24 02:28:01,
not the claimed 2022-11-23 23:28:01, and the UTC+8 local time is
2022-11-24 10:28:01, not the claimed 2022-11-24 07:28:01. -/
theorem c3_counterexample :
    utcfromtimestamp (1669256881625 / 1000) = ⟨2022, 11, 24, 2, 28, 1⟩
    ∧ utcfromtimestamp (1669256881625 / 1000) ≠ ⟨2022, 11, 23, 23, 28, 1⟩
    ∧ addSeconds (utcfromtimestamp (1669256881625 / 1000)) 28800 ≠ ⟨2022, 11, 24, 7, 28, 1⟩ := by
  decide

/-- C3 (amended): resolving `1669256881625.jpg` parses the leading 13
digits as epoch milliseconds, divides by 1000, converts to UTC
2022-11-24 02:28:01, hence local (UTC+8) 2022-11-24 10:28:01; with
DirectoryDateHint `20221122` the date mismatches, so the canonical filename
is `IMG_20221122_120000_1669256881625.jpg`. -/
theorem c3_epoch_resolution :
    pyInt (pyslice "1669256881625.jpg" 0 13) = some 1669256881625
    ∧ utcfromtimestamp (1669256881625 / 1000) = ⟨2022, 11, 24, 2, 28, 1⟩
    ∧ addSeconds ⟨2022, 11, 24, 2, 28, 1⟩ 28800 = ⟨2022, 11, 24, 10, 28, 1⟩
    ∧ renderDate ⟨2022, 11, 24, 10, 28, 1⟩ ≠ "20221122"
    ∧ resolve "1669256881625.jpg" "20221122"
        = .ok (some "IMG_20221122_120000_1669256881625.jpg") := by
  decide

/-- C4: resolving `PXL_20221125_040253498.jpg` with DirectoryDateHint
`20221124` takes the date-mismatch fallback: the derived time-of-day is
discarded and the canonical filename is exactly
`IMG_20221124_120000_PXL_20221125_040253498.jpg`. -/
theorem c4_pxl_mismatch_fallback :
    resolve "PXL_20221125_040253498.jpg" "20221124"
      = .ok (some "IMG_20221124_120000_PXL_20221125_040253498.jpg") := by
  decide

/-- C5: for any `PXL`-prefixed filename whose positions 4–18 read
`20221125_040253`, UTC+8 conversion gives 2022-11-25 12:02:53; the date
matches hint `20221125`, so the canonical filename is
`IMG_20221125_120253.jpg` (sub-second digits beyond position 18 never enter
the computation). -/
theorem c5_pxl_match (name : String) (h3 : pyslice name 0 3 = "PXL")
    (h15 : pyslice name 4 19 = "20221125_040253") :
    addSeconds ⟨2022, 11, 25, 4, 2, 53⟩ 28800 = ⟨2022, 11, 25, 12, 2, 53⟩
    ∧ resolve name "20221125" = .ok (some "IMG_20221125_120253.jpg") := by
  refine ⟨by decide, ?_⟩
  unfold resolve
  rw [h3, if_neg (by decide), if_pos rfl, h15,
    show strptime15 "20221125_040253" = some ⟨2022, 11, 25, 4, 2, 53⟩ from by decide]
  show (Except.ok (some (finishLocal ⟨2022, 11, 25, 4, 2, 53⟩ "20221125" name))
      : Except PyExc (Option String)) = _
  unfold finishLocal
  rw [show addSeconds ⟨2022, 11, 25, 4, 2, 53⟩ 28800 = ⟨2022, 11, 25, 12, 2, 53⟩ from by decide,
    if_pos (by decide)]
  decide

theorem c5_pxl_match_witness :
    pyslice "PXL_20221125_040253498.jpg" 0 3 = "PXL"
    ∧ pyslice "PXL_20221125_040253498.jpg" 4 19 = "20221125_040253"
    ∧ (addSeconds ⟨2022, 11, 25, 4, 2, 53⟩ 28800 = ⟨2022, 11, 25, 12, 2, 53⟩
       ∧ resolve "PXL_20221125_040253498.jpg" "20221125"
           = .ok (some "IMG_20221125_120253.jpg")) :=
  ⟨by decide, by decide, c5_pxl_match "PXL_20221125_040253498.jpg" (by decide) (by decide)⟩

/-- C6: for every canonical filename produced by the resolver's non-fallback
branch (`finishLocal` when the local date matches the hint), extracting the
15-character substring at positions 4–18 and parsing it with
`strptime('%Y%m%d_%H%M%S')` yields a timestamp whose re-rendering as
`%Y%m%d_%H%M%S` reproduces that same substring. -/
theorem c6_roundtrip (utc : DateTime) (hint name : String)
    (hv : ValidDT (addSeconds utc 28800))
    (hh : renderDate (addSeconds utc 28800) = hint) :
    (strptime15 (pyslice (finishLocal utc hint name) 4 19)).map renderTs
      = some (pyslice (finishLocal utc hint name) 4 19) := by
  have hf : finishLocal utc hint name = renderCanonical (addSeconds utc 28800) := by
    unfold finishLocal
    rw [if_pos hh]
  rw [hf, slice419_renderCanonical]
  show (parse15L (renderTsL (addSeconds utc 28800))).map renderTs = _
  rw [parse_render _ hv]
  rfl

theorem c6_roundtrip_witness :
    ValidDT (addSeconds ⟨2022, 11, 25, 4, 2, 53⟩ 28800)
    ∧ renderDate (addSeconds ⟨2022, 11, 25, 4, 2, 53⟩ 28800) = "20221125"
    ∧ (strptime15 (pyslice
          (finishLocal ⟨2022, 11, 25, 4, 2, 53⟩ "20221125" "PXL_20221125_040253498.jpg") 4 19)).map
            renderTs
        = some (pyslice
            (finishLocal ⟨2022, 11, 25, 4, 2, 53⟩ "20221125" "PXL_20221125_040253498.jpg") 4 19) :=
  ⟨by decide, by decide, c6_roundtrip _ _ _ (by decide) (by decide)⟩

/-- C7: for every camera-native filename `IMG_YYYYMMDD_HHMMSS.jpg` (the
rendering of a valid timestamp), the resolver returns the input filename
unchanged, for every date hint (so no hint check and no time conversion is
applied), and the second-pass recovery of positions 4–18 reproduces exactly
the encoded local timestamp. -/
theorem c7_img_identity_and_recovery (dt : DateTime) (hint : String) (hv : ValidDT dt) :
    resolve (renderCanonical dt) hint = .ok (some (renderCanonical dt))
    ∧ strptime15 (pyslice (renderCanonical dt) 4 19) = some dt := by
  constructor
  · unfold resolve
    rw [slice3_renderCanonical, if_pos rfl]
  · rw [slice419_renderCanonical]
    show parse15L (renderTsL dt) = some dt
    exact parse_render dt hv

theorem c7_img_witness :
    ValidDT ⟨2022, 11, 21, 23, 1, 14⟩
    ∧ (resolve (renderCanonical ⟨2022, 11, 21, 23, 1, 14⟩) "20221121"
         = .ok (some (renderCanonical ⟨2022, 11, 21, 23, 1, 14⟩))
       ∧ strptime15 (pyslice (renderCanonical ⟨2022, 11, 21, 23, 1, 14⟩) 4 19)
           = some ⟨2022, 11, 21, 23, 1, 14⟩) :=
  ⟨by decide, c7_img_identity_and_recovery ⟨2022, 11, 21, 23, 1, 14⟩ "20221121" (by decide)⟩

/-- C8: the metadata write step is idempotent.  For a staged file whose
container has an EXIF block and whose name parses: if the DateTimeOriginal
tag is already populated the step takes no action and reports
`alreadyPresent`; and whatever a first invocation produces, a second
invocation on its output reports `alreadyPresent` and leaves the file
unchanged. -/
theorem c8_writer_idempotent (f : StagedFile) (e : ExifDict) (dt : DateTime)
    (he : f.exif = some e) (hp : strptime15 (pyslice f.name 4 19) = some dt) :
    (truthyTag e.dateTimeOriginal = true → secondPass f = .ok (f, .alreadyPresent))
    ∧ ∀ f' r, secondPass f = .ok (f', r) → secondPass f' = .ok (f', .alreadyPresent) := by
  have hsp : secondPass f
      = (if truthyTag e.dateTimeOriginal then .ok (f, .alreadyPresent)
         else .ok ({ f with exif := some { e with dateTimeOriginal := some (formatExif dt) } },
                   .written)) := by
    unfold secondPass
    rw [he, hp]
  cases htr : truthyTag e.dateTimeOriginal
  case false =>
    rw [htr, if_neg (by decide)] at hsp
    refine ⟨fun hc => ?_, fun f' r h => ?_⟩
    · cases hc
    rw [hsp] at h
    injection h with h1
    injection h1 with hf' hr
    subst hf'
    simp [secondPass, hp, truthyTag_formatExif]
  case true =>
    rw [htr, if_pos rfl] at hsp
    refine ⟨fun _ => hsp, fun f' r h => ?_⟩
    rw [hsp] at h
    injection h with h1
    injection h1 with hf' hr
    subst hf'
    exact hsp

theorem c8_writer_idempotent_witness :
    (⟨"IMG_20221125_120253.jpg", some ⟨none, []⟩, 0⟩ : StagedFile).exif = some ⟨none, []⟩
    ∧ strptime15 (pyslice "IMG_20221125_120253.jpg" 4 19) = some ⟨2022, 11, 25, 12, 2, 53⟩
    ∧ ((truthyTag (⟨none, []⟩ : ExifDict).dateTimeOriginal = true
          → secondPass ⟨"IMG_20221125_120253.jpg", some ⟨none, []⟩, 0⟩
              = .ok (⟨"IMG_20221125_120253.jpg", some ⟨none, []⟩, 0⟩, .alreadyPresent))
       ∧ ∀ f' r, secondPass ⟨"IMG_20221125_120253.jpg", some ⟨none, []⟩, 0⟩ = .ok (f', r)
           → secondPass f' = .ok (f', .alreadyPresent)) :=
  ⟨rfl, by decide,
   c8_writer_idempotent ⟨"IMG_20221125_120253.jpg", some ⟨none, []⟩, 0⟩ ⟨none, []⟩
     ⟨2022, 11, 25, 12, 2, 53⟩ rfl (by decide)⟩

/-- C9 counterexample: a finalized file on which the filename-embedding and
the metadata-embedding disagree.  A staged file named
`IMG_20221121_230114.jpg` carrying a pre-existing DateTimeOriginal tag
`2022:11:21 22:01:14` (the notebook's own example photo) passes the second
pass unchanged (`alreadyPresent`), yet the timestamp recovered from its
name, 2022-11-21 23:01:14, renders to a different tag value. -/
theorem c9_counterexample :
    secondPass ⟨"IMG_20221121_230114.jpg", some ⟨some "2022:11:21 22:01:14", []⟩, 0⟩
      = .ok (⟨"IMG_20221121_230114.jpg", some ⟨some "2022:11:21 22:01:14", []⟩, 0⟩,
             .alreadyPresent)
    ∧ strptime15 (pyslice "IMG_20221121_230114.jpg" 4 19) = some ⟨2022, 11, 21, 23, 1, 14⟩
    ∧ ("2022:11:21 22:01:14" : String) ≠ formatExif ⟨2022, 11, 21, 23, 1, 14⟩ := by
  decide

/-- C9 (amended): the filename–metadata agreement invariant holds exactly for
files whose DateTimeOriginal tag was absent (or empty) before the write
pass: there the second pass writes into the tag precisely the rendering of
the timestamp recovered from positions 4–18 of the canonical filename,
fallback noon names included. -/
theorem c9_agreement_when_written (f : StagedFile) (e : ExifDict) (dt : DateTime)
    (he : f.exif = some e) (ht : truthyTag e.dateTimeOriginal = false)
    (hp : strptime15 (pyslice f.name 4 19) = some dt) :
    secondPass f
      = .ok ({ f with exif := some { e with dateTimeOriginal := some (formatExif dt) } },
             .written) := by
  have hsp : secondPass f
      = (if truthyTag e.dateTimeOriginal then .ok (f, .alreadyPresent)
         else .ok ({ f with exif := some { e with dateTimeOriginal := some (formatExif dt) } },
                   .written)) := by
    unfold secondPass
    rw [he, hp]
  rw [hsp, ht, if_neg (by decide)]

theorem c9_agreement_witness :
    (⟨"IMG_20221122_120000_1669256881625.jpg", some ⟨none, []⟩, 0⟩ : StagedFile).exif
        = some ⟨none, []⟩
    ∧ truthyTag (⟨none, []⟩ : ExifDict).dateTimeOriginal = false
    ∧ strptime15 (pyslice "IMG_20221122_120000_1669256881625.jpg" 4 19)
        = some ⟨2022, 11, 22, 12, 0, 0⟩
    ∧ secondPass ⟨"IMG_20221122_120000_1669256881625.jpg", some ⟨none, []⟩, 0⟩
        = .ok (⟨"IMG_20221122_120000_1669256881625.jpg",
                some ⟨some (formatExif ⟨2022, 11, 22, 12, 0, 0⟩), []⟩, 0⟩, .written) :=
  ⟨rfl, rfl, by decide,
   c9_agreement_when_written ⟨"IMG_20221122_120000_1669256881625.jpg", some ⟨none, []⟩, 0⟩
     ⟨none, []⟩ ⟨2022, 11, 22, 12, 0, 0⟩ rfl rfl (by decide)⟩

/-- C10: dispatch to the epoch branch tests only `name[:2] == '16'`, so for
`16_party.jpg` (starts with `16`, first 13 characters not all digits) the
`int(photo.name[:13])` parse raises an uncaught `ValueError` aborting the
run, for every date hint — it does not take the warn-and-skip branch
(`new_name = None`) reserved for unrecognized shapes. -/
theorem c10_epoch_dispatch_raises (hint : String) :
    resolve "16_party.jpg" hint = .error .valueError
    ∧ resolve "16_party.jpg" hint ≠ .ok none := by
  have h : resolve "16_party.jpg" hint = .error .valueError := by
    unfold resolve
    rw [if_neg (by decide), if_neg (by decide), if_pos (by decide),
      show pyInt (pyslice "16_party.jpg" 0 13) = none from by decide]
  exact ⟨h, by rw [h]; intro hc; cases hc⟩

end PhotoOrg
